import Mathlib

/-!
Verification of the statistics aggregation core of the Futebol app
(`src/app.py`): schema validation (`check_columns`), recent-match
extraction (`get_recent_stats`), home/away performance aggregation
(`get_team_stats`), dataset-wide odds averaging
(`calculate_average_odds`), and the composition performed by `main`.

The pandas DataFrame is modelled as a list of rows (association lists
from column names to cells) together with the list of column names.
A cell is a number, a string, or a missing value (NaN).  Column access
on a column absent from the frame is a KeyError, modelled with
`Except String`; a missing cell inside a present column is `Value.missing`.
pandas `mean` skips missing values and is undefined (NaN) on an empty or
all-missing series; pandas `sum` skips missing values and yields `0` on an
empty or all-missing series.
-/

set_option autoImplicit false

namespace Futebol

/-- One cell of the tabular dataset: a numeric value, a string value
(team names, dates), or a missing entry (NaN). -/
inductive Value where
  | num (q : ℚ)
  | str (s : String)
  | missing
deriving DecidableEq

/-- A row of the dataset: an association list from column names to cells. -/
abbrev Row := List (String × Value)

/-- Cell lookup inside a row; a key the row does not carry is a missing cell. -/
def cell : Row → String → Value
  | [], _ => Value.missing
  | (k, v) :: r, c => if k = c then v else cell r c

/-- A dataset: the column names the frame exposes and the rows. -/
structure DataFrame where
  cols : List String
  rows : List Row
deriving DecidableEq

/-- Numeric view of a cell; strings and missing entries are not numeric. -/
def toNum : Value → Option ℚ
  | Value.num q => some q
  | Value.str _ => none
  | Value.missing => none

/-- The numeric values present in a series (pandas skip-NaN semantics). -/
def presentVals (vs : List Value) : List ℚ :=
  vs.filterMap toNum

/-- pandas `Series.mean`: mean of the present values, undefined (NaN)
when no value is present. -/
def seriesMean (vs : List Value) : Option ℚ :=
  if presentVals vs = [] then none
  else some ((presentVals vs).sum / ((presentVals vs).length : ℚ))

/-- pandas `Series.sum`: sum of the present values, `0` when no value is
present (default `min_count=0`). -/
def seriesSum (vs : List Value) : ℚ :=
  (presentVals vs).sum

/-- pandas mean of a series that may itself contain NaN entries
(used for the outer `.mean()` over the two per-column means). -/
def optsMean (os : List (Option ℚ)) : Option ℚ :=
  if os.filterMap id = [] then none
  else some ((os.filterMap id).sum / ((os.filterMap id).length : ℚ))

/-- The values of column `c`, one per row (`data[c]`), presence of the
column being checked separately. -/
def col (df : DataFrame) (c : String) : List Value :=
  df.rows.map (fun r => cell r c)

/-- Column access raising `KeyError` when any of the columns `cs` is
absent from the frame; the first absent name (in access order) is the
error, otherwise the precomputed result `a`. -/
def requireAll {α : Type} (df : DataFrame) (cs : List String) (a : α) : Except String α :=
  match cs.filter (fun c => decide (c ∉ df.cols)) with
  | [] => Except.ok a
  | c :: _ => Except.error c

/-- The required-column list of `check_columns` (src/app.py lines 95-106). -/
def required_columns : List String :=
  ["ShotsOnTarget_H", "ShotsOnTarget_A",
   "ShotsOffTarget_H", "ShotsOffTarget_A",
   "Corners_H_FT", "Corners_A_FT",
   "Odd_H_FT", "Odd_D_FT", "Odd_A_FT",
   "Odd_Over05_FT", "Odd_Over05_HT",
   "Odd_Under05_FT", "Odd_Under05_HT",
   "Odd_Over15_FT", "Odd_Over15_HT",
   "Odd_Under15_FT", "Odd_Under15_HT",
   "Odd_Over25_FT", "Odd_Over25_HT",
   "Odd_Under25_FT", "Odd_Under25_HT"]

/-- The list `[col for col in required_columns if col not in data.columns]`. -/
def missing_columns (df : DataFrame) : List String :=
  required_columns.filter (fun c => decide (c ∉ df.cols))

/-- The validator `check_columns` (src/app.py lines 93-111): `True` exactly when no
required column is missing. -/
def check_columns (df : DataFrame) : Bool :=
  (missing_columns df).isEmpty

/-- Rows where the team plays at home: `data[data['Home'] == team]`. -/
def homeSubset (team : String) (df : DataFrame) : List Row :=
  df.rows.filter (fun r => decide (cell r "Home" = Value.str team))

/-- Rows where the team plays away: `data[data['Away'] == team]`. -/
def awaySubset (team : String) (df : DataFrame) : List Row :=
  df.rows.filter (fun r => decide (cell r "Away" = Value.str team))

/-- Rows involving the team:
`data[(data['Home'] == team) | (data['Away'] == team)]`. -/
def involvedSubset (team : String) (df : DataFrame) : List Row :=
  df.rows.filter (fun r =>
    decide (cell r "Home" = Value.str team ∨ cell r "Away" = Value.str team))

/-- pandas `.tail n`: the last `n` elements in their original order. -/
def tailN {α : Type} (n : Nat) (l : List α) : List α :=
  l.drop (l.length - n)

/-- The column subset `get_recent_stats` projects to (src/app.py line 31). -/
def RECENT_COLS : List String :=
  ["Date", "Home", "Away", "Goals_H_FT", "Goals_A_FT",
   "ShotsOnTarget_H", "ShotsOnTarget_A",
   "ShotsOffTarget_H", "ShotsOffTarget_A",
   "Corners_H_FT", "Corners_A_FT"]

/-- The step `pd.to_datetime(...).dt.strftime(...)` applied to the `Date` cell of a
row; the parse-and-format step is abstracted as a cell transformation. -/
def formatDateCell (fmt : Value → Value) (r : Row) : Row :=
  r.map (fun p => if p.1 = "Date" then (p.1, fmt p.2) else p)

/-- Projection of a row to `RECENT_COLS` (`recent_matches[[...]]`). -/
def projectRow (r : Row) : Row :=
  RECENT_COLS.map (fun c => (c, cell r c))

/-- Columns `get_recent_stats` accesses, in access order: the two filter
columns, then the eleven projected ones (the `Date` conversion and the
projection both touch columns of the filtered frame). -/
def RECENT_ACCESS_COLS : List String :=
  ["Home", "Away", "Date", "Goals_H_FT", "Goals_A_FT",
   "ShotsOnTarget_H", "ShotsOnTarget_A",
   "ShotsOffTarget_H", "ShotsOffTarget_A",
   "Corners_H_FT", "Corners_A_FT"]

/-- The value `get_recent_stats` produces once all accessed columns exist:
last 5 involving rows, date reformatted, projected to `RECENT_COLS`,
in positional order. -/
def recentVal (fmt : Value → Value) (team : String) (df : DataFrame) : List Row :=
  (tailN 5 (involvedSubset team df)).map (fun r => projectRow (formatDateCell fmt r))

/-- The extractor `get_recent_stats` (src/app.py lines 26-32). -/
def get_recent_stats (fmt : Value → Value) (team : String) (df : DataFrame) :
    Except String (List Row) :=
  requireAll df RECENT_ACCESS_COLS (recentVal fmt team df)

/-- One venue sub-record of the performance summary.  The averages carry
pandas mean semantics (NaN over an empty subset); the totals carry pandas
sum semantics (`0` over an empty subset). -/
structure VenueStats where
  avgGoalsScored : Option ℚ
  totalGoalsScored : ℚ
  avgGoalsConceded : Option ℚ
  totalGoalsConceded : ℚ
  avgShotsOnTarget : Option ℚ
  avgShotsOffTarget : Option ℚ
  avgCorners : Option ℚ
deriving DecidableEq

/-- The two-venue performance summary returned by `get_team_stats`. -/
structure TeamStats where
  home : VenueStats
  away : VenueStats
deriving DecidableEq

/-- The values of column `c` over a row subset. -/
def subCol (rows : List Row) (c : String) : List Value :=
  rows.map (fun r => cell r c)

/-- Columns `get_team_stats` accesses, in access order (filter on `Home`,
home-side `.agg` dict, filter on `Away`, away-side `.agg` dict). -/
def TEAM_STATS_COLS : List String :=
  ["Home", "Goals_H_FT", "Goals_A_FT",
   "ShotsOnTarget_H", "ShotsOffTarget_H", "Corners_H_FT",
   "Away", "ShotsOnTarget_A", "ShotsOffTarget_A", "Corners_A_FT"]

/-- The summary `get_team_stats` produces once all accessed columns exist
(src/app.py lines 36-72). -/
def teamStatsVal (team : String) (df : DataFrame) : TeamStats :=
  let hs := homeSubset team df
  let as := awaySubset team df
  { home :=
    { avgGoalsScored := seriesMean (subCol hs "Goals_H_FT")
      totalGoalsScored := seriesSum (subCol hs "Goals_H_FT")
      avgGoalsConceded := seriesMean (subCol hs "Goals_A_FT")
      totalGoalsConceded := seriesSum (subCol hs "Goals_A_FT")
      avgShotsOnTarget := seriesMean (subCol hs "ShotsOnTarget_H")
      avgShotsOffTarget := seriesMean (subCol hs "ShotsOffTarget_H")
      avgCorners := seriesMean (subCol hs "Corners_H_FT") }
    away :=
    { avgGoalsScored := seriesMean (subCol as "Goals_A_FT")
      totalGoalsScored := seriesSum (subCol as "Goals_A_FT")
      avgGoalsConceded := seriesMean (subCol as "Goals_H_FT")
      totalGoalsConceded := seriesSum (subCol as "Goals_H_FT")
      avgShotsOnTarget := seriesMean (subCol as "ShotsOnTarget_A")
      avgShotsOffTarget := seriesMean (subCol as "ShotsOffTarget_A")
      avgCorners := seriesMean (subCol as "Corners_A_FT") } }

/-- The aggregator `get_team_stats` (src/app.py lines 34-72). -/
def get_team_stats (team : String) (df : DataFrame) : Except String TeamStats :=
  requireAll df TEAM_STATS_COLS (teamStatsVal team df)

/-- The three match-result average odds of `calculate_average_odds`. -/
structure AvgOdds where
  homeWin : Option ℚ
  draw : Option ℚ
  awayWin : Option ℚ
deriving DecidableEq

/-- The six over/under average odds of `calculate_average_odds`. -/
structure OverUnderOdds where
  over05 : Option ℚ
  under05 : Option ℚ
  over15 : Option ℚ
  under15 : Option ℚ
  over25 : Option ℚ
  under25 : Option ℚ
deriving DecidableEq

/-- The expression `data[[cFT, cHT]].mean().mean()`: the per-column means (axis 0,
skip-NaN) of the two columns, then the skip-NaN mean of those two values. -/
def pairColsMean (df : DataFrame) (cFT cHT : String) : Option ℚ :=
  optsMean [seriesMean (col df cFT), seriesMean (col df cHT)]

/-- Columns `calculate_average_odds` accesses, in access order. -/
def ODDS_COLS : List String :=
  ["Odd_H_FT", "Odd_D_FT", "Odd_A_FT",
   "Odd_Over05_FT", "Odd_Over05_HT",
   "Odd_Under05_FT", "Odd_Under05_HT",
   "Odd_Over15_FT", "Odd_Over15_HT",
   "Odd_Under15_FT", "Odd_Under15_HT",
   "Odd_Over25_FT", "Odd_Over25_HT",
   "Odd_Under25_FT", "Odd_Under25_HT"]

/-- The pair of summaries `calculate_average_odds` produces once all
accessed columns exist (src/app.py lines 74-91). -/
def oddsVal (df : DataFrame) : AvgOdds × OverUnderOdds :=
  ({ homeWin := seriesMean (col df "Odd_H_FT")
     draw := seriesMean (col df "Odd_D_FT")
     awayWin := seriesMean (col df "Odd_A_FT") },
   { over05 := pairColsMean df "Odd_Over05_FT" "Odd_Over05_HT"
     under05 := pairColsMean df "Odd_Under05_FT" "Odd_Under05_HT"
     over15 := pairColsMean df "Odd_Over15_FT" "Odd_Over15_HT"
     under15 := pairColsMean df "Odd_Under15_FT" "Odd_Under15_HT"
     over25 := pairColsMean df "Odd_Over25_FT" "Odd_Over25_HT"
     under25 := pairColsMean df "Odd_Under25_FT" "Odd_Under25_HT" })

/-- The summarizer `calculate_average_odds` (src/app.py lines 74-91). -/
def calculate_average_odds (df : DataFrame) : Except String (AvgOdds × OverUnderOdds) :=
  requireAll df ODDS_COLS (oddsVal df)

/-- The response the statistics branch of `main` assembles for rendering. -/
structure AnalysisResult where
  recent1 : List Row
  recent2 : List Row
  stats1 : TeamStats
  stats2 : TeamStats
  odds : AvgOdds × OverUnderOdds
deriving DecidableEq

/-- The composed result once every column access succeeds. -/
def analysisVal (fmt : Value → Value) (team1 team2 : String) (df : DataFrame) :
    AnalysisResult :=
  { recent1 := recentVal fmt team1 df
    recent2 := recentVal fmt team2 df
    stats1 := teamStatsVal team1 df
    stats2 := teamStatsVal team2 df
    odds := oddsVal df }

/-- The statistics branch of `main` (src/app.py lines 167-193): the
schema check gates everything (`none` when it fails); afterwards the two
recency extractions, the two performance aggregations and the odds summary
run in program order, any KeyError propagating. -/
def run_analysis (fmt : Value → Value) (team1 team2 : String) (df : DataFrame) :
    Option (Except String AnalysisResult) :=
  if check_columns df then
    some (do
      let r1 ← get_recent_stats fmt team1 df
      let r2 ← get_recent_stats fmt team2 df
      let s1 ← get_team_stats team1 df
      let s2 ← get_team_stats team2 df
      let od ← calculate_average_odds df
      Except.ok { recent1 := r1, recent2 := r2, stats1 := s1, stats2 := s2, odds := od })
  else
    none

/-- Modelled from the spec (§4.4, spec.md line 42): the two-step row-wise
mean the spec describes for an over/under bin — per row, the mean of
whichever of the full-time and half-time values are present; then the mean
of those per-row means over the rows that contributed. -/
def rowwiseBinMean (df : DataFrame) (cFT cHT : String) : Option ℚ :=
  optsMean (df.rows.map (fun r => optsMean [toNum (cell r cFT), toNum (cell r cHT)]))

/-- The identity date formatter, used to instantiate the abstract
`pd.to_datetime`/`strftime` step on concrete datasets. -/
def idFmt : Value → Value := fun v => v

/-! ### Concrete datasets for witnesses and counterexamples -/

/-- Every column the statistics pipeline touches: the date, team and goal
columns together with the validator's required list. -/
def allCols : List String :=
  "Date" :: "Home" :: "Away" :: "Goals_H_FT" :: "Goals_A_FT" :: required_columns

/-- Two-row dataset in which the full-time over-0.5 odds column holds 1 and 2
while the half-time column holds a missing value and 4: the per-column means
are 3/2 and 4 while the per-row means are 1 and 3, separating the
mean-of-column-means from the mean-of-row-means. -/
def dfC1 : DataFrame :=
  { cols := allCols,
    rows := [[("Home", Value.str "A"), ("Away", Value.str "B"),
              ("Odd_Over05_FT", Value.num 1)],
             [("Home", Value.str "B"), ("Away", Value.str "A"),
              ("Odd_Over05_FT", Value.num 2), ("Odd_Over05_HT", Value.num 4)]] }

/-- Three-row dataset of the spec's Alpha scenario: Alpha at home with 2 and
1 goals scored (1 and 0 conceded), Alpha away once scoring 0 (conceding 2).
Team "X" appears only as an away side, so its home subset is empty. -/
def dfAlpha : DataFrame :=
  { cols := allCols,
    rows := [[("Home", Value.str "Alpha"), ("Away", Value.str "X"),
              ("Goals_H_FT", Value.num 2), ("Goals_A_FT", Value.num 1)],
             [("Home", Value.str "Alpha"), ("Away", Value.str "Y"),
              ("Goals_H_FT", Value.num 1), ("Goals_A_FT", Value.num 0)],
             [("Home", Value.str "Z"), ("Away", Value.str "Alpha"),
              ("Goals_H_FT", Value.num 2), ("Goals_A_FT", Value.num 0)]] }

/-- Dataset whose columns are the validator's required list plus the team
columns, but without the goals columns that `get_team_stats` reads. -/
def dfNoGoals : DataFrame :=
  { cols := "Home" :: "Away" :: required_columns,
    rows := [] }

/-- Seven-row dataset in which team "A" is involved in six matches (rows
0,1,2,3,5,6) and row 4 does not involve "A"; used to exercise the tail-5
truncation of the recency extractor. -/
def dfRecent : DataFrame :=
  { cols := allCols,
    rows := [[("Date", Value.num 1), ("Home", Value.str "A"), ("Away", Value.str "B")],
             [("Date", Value.num 2), ("Home", Value.str "C"), ("Away", Value.str "A")],
             [("Date", Value.num 3), ("Home", Value.str "A"), ("Away", Value.str "C")],
             [("Date", Value.num 4), ("Home", Value.str "B"), ("Away", Value.str "A")],
             [("Date", Value.num 5), ("Home", Value.str "B"), ("Away", Value.str "C")],
             [("Date", Value.num 6), ("Home", Value.str "A"), ("Away", Value.str "D")],
             [("Date", Value.num 7), ("Home", Value.str "D"), ("Away", Value.str "A")]] }

/-- Dataset exposing every column except `Corners_A_FT`. -/
def dfNoCorners : DataFrame :=
  { cols := ["Date", "Home", "Away", "Goals_H_FT", "Goals_A_FT",
             "ShotsOnTarget_H", "ShotsOnTarget_A",
             "ShotsOffTarget_H", "ShotsOffTarget_A",
             "Corners_H_FT",
             "Odd_H_FT", "Odd_D_FT", "Odd_A_FT",
             "Odd_Over05_FT", "Odd_Over05_HT",
             "Odd_Under05_FT", "Odd_Under05_HT",
             "Odd_Over15_FT", "Odd_Over15_HT",
             "Odd_Under15_FT", "Odd_Under15_HT",
             "Odd_Over25_FT", "Odd_Over25_HT",
             "Odd_Under25_FT", "Odd_Under25_HT"],
    rows := [[("Home", Value.str "A"), ("Away", Value.str "B")]] }

/-- The single row of `dfSingle`, with every odds value present. -/
def rowSingle : Row :=
  [("Home", Value.str "A"), ("Away", Value.str "B"),
   ("Odd_H_FT", Value.num 2), ("Odd_D_FT", Value.num 3), ("Odd_A_FT", Value.num 4),
   ("Odd_Over05_FT", Value.num 5), ("Odd_Over05_HT", Value.num 6),
   ("Odd_Under05_FT", Value.num 7), ("Odd_Under05_HT", Value.num 8),
   ("Odd_Over15_FT", Value.num 9), ("Odd_Over15_HT", Value.num 10),
   ("Odd_Under15_FT", Value.num 11), ("Odd_Under15_HT", Value.num 12),
   ("Odd_Over25_FT", Value.num 13), ("Odd_Over25_HT", Value.num 14),
   ("Odd_Under25_FT", Value.num 15), ("Odd_Under25_HT", Value.num 16)]

/-- One-row dataset whose odds values are all present. -/
def dfSingle : DataFrame :=
  { cols := allCols, rows := [rowSingle] }

/-- Valid dataset with all required columns and no rows. -/
def dfEmpty : DataFrame :=
  { cols := required_columns, rows := [] }

/-- One-row dataset in which the same team is recorded as both the home and
the away side of the row. -/
def dfSelf : DataFrame :=
  { cols := allCols,
    rows := [[("Home", Value.str "A"), ("Away", Value.str "A")]] }

/-- The row of `dfSelf`. -/
def rowSelf : Row := [("Home", Value.str "A"), ("Away", Value.str "A")]

/-! ### General lemmas about the embedding -/

lemma requireAll_ok {α : Type} {df : DataFrame} {cs : List String} (a : α)
    (h : ∀ c ∈ cs, c ∈ df.cols) : requireAll df cs a = Except.ok a := by
  unfold requireAll
  have hnil : cs.filter (fun c => decide (c ∉ df.cols)) = [] := by
    rw [List.filter_eq_nil_iff]
    intro c hc
    simpa using h c hc
  rw [hnil]

lemma requireAll_ok_inv {α : Type} {df : DataFrame} {cs : List String} {a b : α}
    (h : requireAll df cs a = Except.ok b) : b = a := by
  unfold requireAll at h
  cases hf : cs.filter (fun c => decide (c ∉ df.cols)) with
  | nil => rw [hf] at h; exact (Except.ok.inj h).symm
  | cons c t => rw [hf] at h; cases h

lemma check_columns_iff {df : DataFrame} :
    check_columns df = true ↔ ∀ c ∈ required_columns, c ∈ df.cols := by
  simp [check_columns, missing_columns, List.isEmpty_iff, List.filter_eq_nil_iff]

lemma odds_cols_required : ∀ c ∈ ODDS_COLS, c ∈ required_columns := by decide

lemma calculate_average_odds_ok {df : DataFrame} (h : check_columns df = true) :
    calculate_average_odds df = Except.ok (oddsVal df) :=
  requireAll_ok _ (fun c hc => check_columns_iff.mp h c (odds_cols_required c hc))

lemma except_ok_bind {α β : Type} (a : α) (f : α → Except String β) :
    (Except.ok a >>= f) = f a := rfl

lemma formatDateCell_cons (fmt : Value → Value) (k : String) (v : Value) (t : Row) :
    formatDateCell fmt ((k, v) :: t) =
      (if k = "Date" then (k, fmt v) else (k, v)) :: formatDateCell fmt t := rfl

lemma cell_cons (k : String) (v : Value) (t : Row) (c : String) :
    cell ((k, v) :: t) c = if k = c then v else cell t c := rfl

lemma cell_formatDateCell (fmt : Value → Value) (r : Row) (c : String) (hc : c ≠ "Date") :
    cell (formatDateCell fmt r) c = cell r c := by
  induction r with
  | nil => rfl
  | cons p t ih =>
    obtain ⟨k, v⟩ := p
    rw [formatDateCell_cons]
    by_cases hk : k = "Date"
    · have hkc : k ≠ c := fun h => hc (h ▸ hk)
      rw [if_pos hk]
      simp only [cell_cons]
      rw [if_neg hkc, if_neg hkc]
      exact ih
    · rw [if_neg hk]
      simp only [cell_cons]
      by_cases hkc : k = c
      · rw [if_pos hkc, if_pos hkc]
      · rw [if_neg hkc, if_neg hkc]
        exact ih

lemma cell_projectRow_home (r : Row) : cell (projectRow r) "Home" = cell r "Home" := by
  simp [projectRow, RECENT_COLS, cell]

lemma cell_projectRow_away (r : Row) : cell (projectRow r) "Away" = cell r "Away" := by
  simp [projectRow, RECENT_COLS, cell]

lemma seriesMean_nil : seriesMean [] = none := rfl

lemma seriesMean_single_num (q : ℚ) : seriesMean [Value.num q] = some q := by
  simp [seriesMean, presentVals, toNum]

lemma optsMean_two_some (a b : ℚ) : optsMean [some a, some b] = some ((a + b) / 2) := by
  simp [optsMean]

lemma optsMean_none_none : optsMean [none, none] = none := rfl

lemma list_sum_map_add {α : Type} (l : List α) (f g : α → ℚ) :
    (l.map (fun x => f x + g x)).sum = (l.map f).sum + (l.map g).sum := by
  induction l with
  | nil => simp
  | cons x t ih =>
    simp only [List.map_cons, List.sum_cons, ih]
    ring

lemma list_sum_map_half {α : Type} (l : List α) (f : α → ℚ) :
    (l.map (fun x => f x / 2)).sum = (l.map f).sum / 2 := by
  induction l with
  | nil => simp
  | cons x t ih =>
    simp only [List.map_cons, List.sum_cons, ih]
    ring

/-- When every row carries both the full-time and the half-time value, the
column-wise mean of the two per-column means computed by the code agrees
with the spec's two-step row-wise mean (both equal the pooled mean); only
missing values separate them. -/
lemma pairColsMean_eq_rowwise (df : DataFrame) (cFT cHT : String) (f g : Row → ℚ)
    (hf : ∀ r ∈ df.rows, cell r cFT = Value.num (f r))
    (hg : ∀ r ∈ df.rows, cell r cHT = Value.num (g r)) :
    pairColsMean df cFT cHT = rowwiseBinMean df cFT cHT := by
  unfold pairColsMean rowwiseBinMean col
  have hpf : presentVals (df.rows.map (fun r => cell r cFT)) = df.rows.map f := by
    unfold presentVals
    rw [List.map_congr_left hf, List.filterMap_map,
      show toNum ∘ (fun r => Value.num (f r)) = some ∘ f from rfl, List.filterMap_eq_map]
  have hpg : presentVals (df.rows.map (fun r => cell r cHT)) = df.rows.map g := by
    unfold presentVals
    rw [List.map_congr_left hg, List.filterMap_map,
      show toNum ∘ (fun r => Value.num (g r)) = some ∘ g from rfl, List.filterMap_eq_map]
  have hrowmap : df.rows.map (fun r => optsMean [toNum (cell r cFT), toNum (cell r cHT)]) =
      df.rows.map (fun r => some ((f r + g r) / 2)) := by
    apply List.map_congr_left
    intro r hr
    rw [hf r hr, hg r hr]
    exact optsMean_two_some (f r) (g r)
  rw [hrowmap]
  by_cases hnil : df.rows = []
  · rw [hnil]
    simp [seriesMean, optsMean, presentVals]
  · have hlen : df.rows.length ≠ 0 := fun h => hnil (List.length_eq_zero.mp h)
    have hn : (df.rows.length : ℚ) ≠ 0 := Nat.cast_ne_zero.mpr hlen
    have hA : seriesMean (df.rows.map (fun r => cell r cFT)) =
        some ((df.rows.map f).sum / (df.rows.length : ℚ)) := by
      unfold seriesMean
      rw [hpf, if_neg (by simpa [List.map_eq_nil_iff] using hnil), List.length_map]
    have hB : seriesMean (df.rows.map (fun r => cell r cHT)) =
        some ((df.rows.map g).sum / (df.rows.length : ℚ)) := by
      unfold seriesMean
      rw [hpg, if_neg (by simpa [List.map_eq_nil_iff] using hnil), List.length_map]
    have hC : optsMean (df.rows.map (fun r => some ((f r + g r) / 2))) =
        some ((df.rows.map (fun r => (f r + g r) / 2)).sum / (df.rows.length : ℚ)) := by
      unfold optsMean
      rw [List.filterMap_map,
        show id ∘ (fun r => some ((f r + g r) / 2)) = some ∘ (fun r => (f r + g r) / 2)
          from rfl,
        List.filterMap_eq_map,
        if_neg (by simpa [List.map_eq_nil_iff] using hnil), List.length_map]
    rw [hA, hB, hC, optsMean_two_some]
    congr 1
    rw [list_sum_map_half, list_sum_map_add]
    ring

lemma filter_eq_single {α : Type} [DecidableEq α] {l : List α} {p : α → Bool} {a : α}
    (hcount : l.count a = 1) (hpa : p a = true)
    (hother : ∀ b ∈ l, b ≠ a → p b = false) :
    l.filter p = [a] := by
  induction l with
  | nil => simp at hcount
  | cons x t ih =>
    by_cases hx : x = a
    · subst hx
      have hnott : x ∉ t := by
        rw [List.count_cons_self] at hcount
        exact List.count_eq_zero.mp (by omega)
      have htf : t.filter p = [] := by
        rw [List.filter_eq_nil_iff]
        intro b hb
        have hbx : b ≠ x := fun he => hnott (he ▸ hb)
        simp [hother b (List.mem_cons_of_mem _ hb) hbx]
      rw [List.filter_cons_of_pos hpa, htf]
    · have hpx : p x = false := hother x (List.mem_cons_self _ _) hx
      have hcount' : t.count a = 1 := by
        rwa [List.count_cons_of_ne (fun he => hx he.symm)] at hcount
      rw [List.filter_cons_of_neg (by simp [hpx])]
      exact ih hcount' (fun b hb hba => hother b (List.mem_cons_of_mem _ hb) hba)

/-! ### Claims -/

/-- C4: for every team and dataset, whenever `get_recent_stats` succeeds its
output has exactly `min (number of involving rows) 5` records, every record
has the team as its home or away side, and the output is exactly the last
(at most) five involving rows of the dataset in their positional order,
projected and date-formatted — never re-sorted. -/
theorem C4_recent_matches (fmt : Value → Value) (team : String) (df : DataFrame)
    (out : List Row) (h : get_recent_stats fmt team df = Except.ok out) :
    out.length = min (involvedSubset team df).length 5 ∧
    (∀ r ∈ out, cell r "Home" = Value.str team ∨ cell r "Away" = Value.str team) ∧
    out = recentVal fmt team df := by
  have hout : out = recentVal fmt team df := requireAll_ok_inv h
  subst hout
  refine ⟨?_, ?_, rfl⟩
  · simp only [recentVal, tailN, List.length_map, List.length_drop]
    omega
  · intro r hr
    simp only [recentVal, List.mem_map] at hr
    obtain ⟨r0, hr0, rfl⟩ := hr
    have hr0' : r0 ∈ involvedSubset team df := List.drop_subset _ _ hr0
    have hpred := of_decide_eq_true (List.mem_filter.mp hr0').2
    rw [cell_projectRow_home, cell_projectRow_away,
      cell_formatDateCell fmt r0 "Home" (by decide),
      cell_formatDateCell fmt r0 "Away" (by decide)]
    exact hpred

/-- Witness for C4 on the seven-row dataset `dfRecent` (six rows involve
team "A", so the extractor returns exactly five of them). -/
theorem C4_recent_matches_witness :
    (recentVal idFmt "A" dfRecent).length = min (involvedSubset "A" dfRecent).length 5 ∧
    (∀ r ∈ recentVal idFmt "A" dfRecent,
      cell r "Home" = Value.str "A" ∨ cell r "Away" = Value.str "A") ∧
    recentVal idFmt "A" dfRecent = recentVal idFmt "A" dfRecent :=
  C4_recent_matches idFmt "A" dfRecent (recentVal idFmt "A" dfRecent) rfl

/-- C6: for every dataset missing exactly the column `Corners_A_FT`, the
validator reports the missing list `[Corners_A_FT]`, `check_columns` fails,
and the statistics branch performs no downstream aggregation at all. -/
theorem C6_missing_corners (df : DataFrame)
    (habs : "Corners_A_FT" ∉ df.cols)
    (hrest : ∀ c ∈ required_columns, c ≠ "Corners_A_FT" → c ∈ df.cols) :
    missing_columns df = ["Corners_A_FT"] ∧ check_columns df = false ∧
    ∀ fmt team1 team2, run_analysis fmt team1 team2 df = none := by
  have hmiss : missing_columns df = ["Corners_A_FT"] := by
    refine filter_eq_single ?_ (by simpa using habs) ?_
    · rfl
    · intro b _ hb
      have hbmem := hrest b (by assumption) hb
      simp [hbmem]
  refine ⟨hmiss, ?_, ?_⟩
  · simp [check_columns, hmiss]
  · intro fmt t1 t2
    simp [run_analysis, check_columns, hmiss]

/-- Witness for C6 on `dfNoCorners`. -/
theorem C6_missing_corners_witness :
    missing_columns dfNoCorners = ["Corners_A_FT"] ∧
    check_columns dfNoCorners = false ∧
    ∀ fmt team1 team2, run_analysis fmt team1 team2 dfNoCorners = none :=
  C6_missing_corners dfNoCorners (by decide) (by decide)

/-- C7: for every dataset passing the validator, `calculate_average_odds`
returns a result (it never raises, whatever odds values are missing); and on
a one-row dataset whose odds values are all present, each result-odds mean
equals the row's value and each over/under bin equals the mean of the row's
full-time and half-time values. -/
theorem C7_odds_total_and_single_row (dfa : DataFrame) (hchecka : check_columns dfa = true)
    (df : DataFrame) (r : Row) (hcheck : check_columns df = true) (hrow : df.rows = [r])
    (q1 q2 q3 q4 q5 q6 q7 q8 q9 q10 q11 q12 q13 q14 q15 : ℚ)
    (h1 : cell r "Odd_H_FT" = Value.num q1)
    (h2 : cell r "Odd_D_FT" = Value.num q2)
    (h3 : cell r "Odd_A_FT" = Value.num q3)
    (h4 : cell r "Odd_Over05_FT" = Value.num q4)
    (h5 : cell r "Odd_Over05_HT" = Value.num q5)
    (h6 : cell r "Odd_Under05_FT" = Value.num q6)
    (h7 : cell r "Odd_Under05_HT" = Value.num q7)
    (h8 : cell r "Odd_Over15_FT" = Value.num q8)
    (h9 : cell r "Odd_Over15_HT" = Value.num q9)
    (h10 : cell r "Odd_Under15_FT" = Value.num q10)
    (h11 : cell r "Odd_Under15_HT" = Value.num q11)
    (h12 : cell r "Odd_Over25_FT" = Value.num q12)
    (h13 : cell r "Odd_Over25_HT" = Value.num q13)
    (h14 : cell r "Odd_Under25_FT" = Value.num q14)
    (h15 : cell r "Odd_Under25_HT" = Value.num q15) :
    calculate_average_odds dfa = Except.ok (oddsVal dfa) ∧
    calculate_average_odds df = Except.ok
      ({ homeWin := some q1, draw := some q2, awayWin := some q3 },
       { over05 := some ((q4 + q5) / 2), under05 := some ((q6 + q7) / 2),
         over15 := some ((q8 + q9) / 2), under15 := some ((q10 + q11) / 2),
         over25 := some ((q12 + q13) / 2), under25 := some ((q14 + q15) / 2) }) := by
  have hcol : ∀ c q, cell r c = Value.num q → col df c = [Value.num q] := by
    intro c q hc
    simp [col, hrow, hc]
  refine ⟨calculate_average_odds_ok hchecka, ?_⟩
  rw [calculate_average_odds_ok hcheck]
  simp [oddsVal, pairColsMean,
    hcol _ _ h1, hcol _ _ h2, hcol _ _ h3, hcol _ _ h4, hcol _ _ h5,
    hcol _ _ h6, hcol _ _ h7, hcol _ _ h8, hcol _ _ h9, hcol _ _ h10,
    hcol _ _ h11, hcol _ _ h12, hcol _ _ h13, hcol _ _ h14, hcol _ _ h15,
    seriesMean_single_num, optsMean_two_some]

/-- Witness for C7 on the one-row dataset `dfSingle` (and `dfAlpha` as the
dataset for the never-raises part). -/
theorem C7_odds_total_and_single_row_witness :
    calculate_average_odds dfAlpha = Except.ok (oddsVal dfAlpha) ∧
    calculate_average_odds dfSingle = Except.ok
      ({ homeWin := some 2, draw := some 3, awayWin := some 4 },
       { over05 := some ((5 + 6) / 2), under05 := some ((7 + 8) / 2),
         over15 := some ((9 + 10) / 2), under15 := some ((11 + 12) / 2),
         over25 := some ((13 + 14) / 2), under25 := some ((15 + 16) / 2) }) :=
  C7_odds_total_and_single_row dfAlpha rfl dfSingle rowSingle rfl rfl
    2 3 4 5 6 7 8 9 10 11 12 13 14 15 16
    rfl rfl rfl rfl rfl rfl rfl rfl rfl rfl rfl rfl rfl rfl rfl

/-- C9: on the three-row Alpha scenario, `get_team_stats` yields home
average goals scored 1.5, home total 3, away average goals scored 0 and
away total 0. -/
theorem C9_alpha_scenario :
    get_team_stats "Alpha" dfAlpha = Except.ok (teamStatsVal "Alpha" dfAlpha) ∧
    (teamStatsVal "Alpha" dfAlpha).home.avgGoalsScored = some (3 / 2) ∧
    (teamStatsVal "Alpha" dfAlpha).home.totalGoalsScored = 3 ∧
    (teamStatsVal "Alpha" dfAlpha).away.avgGoalsScored = some 0 ∧
    (teamStatsVal "Alpha" dfAlpha).away.totalGoalsScored = 0 := by
  refine ⟨rfl, ?_, ?_, ?_, ?_⟩ <;>
    simp [teamStatsVal, homeSubset, awaySubset, subCol, seriesMean, seriesSum, presentVals,
      toNum, cell, dfAlpha, allCols, required_columns] <;> norm_num

/-- C10: a dataset with all required columns and no rows passes the
validator (which inspects only column names), and `calculate_average_odds`
returns with every mean undefined. -/
theorem C10_empty_dataset (df : DataFrame)
    (hcols : ∀ c ∈ required_columns, c ∈ df.cols) (hrows : df.rows = []) :
    check_columns df = true ∧
    calculate_average_odds df = Except.ok
      ({ homeWin := none, draw := none, awayWin := none },
       { over05 := none, under05 := none, over15 := none, under15 := none,
         over25 := none, under25 := none }) := by
  have hcheck : check_columns df = true := check_columns_iff.mpr hcols
  refine ⟨hcheck, ?_⟩
  rw [calculate_average_odds_ok hcheck]
  simp [oddsVal, pairColsMean, col, hrows, seriesMean_nil, optsMean_none_none]

/-- C1 counterexample: on `dfC1` the over-0.5 bin computed by
`calculate_average_odds` is 11/4 — the mean of the two per-column means
(3/2 and 4) — while the two-step row-wise mean described by the claim is 2
(rows contribute 1 and 3). -/
theorem C1_counterexample :
    calculate_average_odds dfC1 = Except.ok (oddsVal dfC1) ∧
    (oddsVal dfC1).2.over05 = some (11 / 4) ∧
    rowwiseBinMean dfC1 "Odd_Over05_FT" "Odd_Over05_HT" = some 2 ∧
    (some (11 / 4) : Option ℚ) ≠ some 2 := by
  refine ⟨rfl, ?_, ?_, by norm_num⟩
  · simp [oddsVal, pairColsMean, optsMean, seriesMean, presentVals, toNum, col, cell,
      dfC1, allCols, required_columns]
    norm_num
  · simp [rowwiseBinMean, optsMean, toNum, cell, dfC1, allCols, required_columns]
    norm_num

/-- C1 amended: each over/under bin returned by `calculate_average_odds` is
the mean of the two per-column means of the full-time and half-time columns
(each column mean skipping missing values, an all-missing column skipped by
the outer mean) — pandas `df[[FT,HT]].mean().mean()` with the default
column axis — not the spec's two-step row-wise mean; the two computations
agree whenever both columns are fully present. -/
theorem C1_overunder_columnwise (df : DataFrame) (a : AvgOdds) (o : OverUnderOdds)
    (h : calculate_average_odds df = Except.ok (a, o)) :
    (o.over05 = pairColsMean df "Odd_Over05_FT" "Odd_Over05_HT" ∧
     o.under05 = pairColsMean df "Odd_Under05_FT" "Odd_Under05_HT" ∧
     o.over15 = pairColsMean df "Odd_Over15_FT" "Odd_Over15_HT" ∧
     o.under15 = pairColsMean df "Odd_Under15_FT" "Odd_Under15_HT" ∧
     o.over25 = pairColsMean df "Odd_Over25_FT" "Odd_Over25_HT" ∧
     o.under25 = pairColsMean df "Odd_Under25_FT" "Odd_Under25_HT") ∧
    ∀ (cFT cHT : String) (f g : Row → ℚ),
      (∀ r ∈ df.rows, cell r cFT = Value.num (f r)) →
      (∀ r ∈ df.rows, cell r cHT = Value.num (g r)) →
      pairColsMean df cFT cHT = rowwiseBinMean df cFT cHT := by
  have hv : (a, o) = oddsVal df := requireAll_ok_inv h
  constructor
  · rw [show o = (oddsVal df).2 from congrArg Prod.snd hv]
    exact ⟨rfl, rfl, rfl, rfl, rfl, rfl⟩
  · intro cFT cHT f g hf hg
    exact pairColsMean_eq_rowwise df cFT cHT f g hf hg

/-- Witness for C1's amended theorem on the one-row dataset `dfSingle`. -/
theorem C1_overunder_columnwise_witness :
    (((oddsVal dfSingle).2.over05 = pairColsMean dfSingle "Odd_Over05_FT" "Odd_Over05_HT" ∧
      (oddsVal dfSingle).2.under05 = pairColsMean dfSingle "Odd_Under05_FT" "Odd_Under05_HT" ∧
      (oddsVal dfSingle).2.over15 = pairColsMean dfSingle "Odd_Over15_FT" "Odd_Over15_HT" ∧
      (oddsVal dfSingle).2.under15 = pairColsMean dfSingle "Odd_Under15_FT" "Odd_Under15_HT" ∧
      (oddsVal dfSingle).2.over25 = pairColsMean dfSingle "Odd_Over25_FT" "Odd_Over25_HT" ∧
      (oddsVal dfSingle).2.under25 = pairColsMean dfSingle "Odd_Under25_FT" "Odd_Under25_HT") ∧
     ∀ (cFT cHT : String) (f g : Row → ℚ),
       (∀ r ∈ dfSingle.rows, cell r cFT = Value.num (f r)) →
       (∀ r ∈ dfSingle.rows, cell r cHT = Value.num (g r)) →
       pairColsMean dfSingle cFT cHT = rowwiseBinMean dfSingle cFT cHT) :=
  C1_overunder_columnwise dfSingle (oddsVal dfSingle).1 (oddsVal dfSingle).2 rfl

/-- C2 counterexample: team "X" of `dfAlpha` never plays at home, yet
`get_team_stats` reports a home total of goals scored equal to 0 — the
pandas sum over an empty subset — not the undefined/NaN marker the claim
requires for every aggregate. -/
theorem C2_counterexample :
    get_team_stats "X" dfAlpha = Except.ok (teamStatsVal "X" dfAlpha) ∧
    homeSubset "X" dfAlpha = [] ∧
    (teamStatsVal "X" dfAlpha).home.avgGoalsScored = none ∧
    (teamStatsVal "X" dfAlpha).home.totalGoalsScored = 0 ∧
    (teamStatsVal "X" dfAlpha).home.totalGoalsConceded = 0 :=
  ⟨rfl, rfl, rfl, rfl, rfl⟩

/-- C2 amended: over an empty home (resp. away) subset every average in the
corresponding sub-record is the undefined/NaN marker, but the two totals
are the number 0 (pandas sum over an empty subset), not the NaN marker. -/
theorem C2_empty_subset_aggregates (team : String) (df : DataFrame)
    (hcols : ∀ c ∈ TEAM_STATS_COLS, c ∈ df.cols) :
    get_team_stats team df = Except.ok (teamStatsVal team df) ∧
    (homeSubset team df = [] →
      (teamStatsVal team df).home.avgGoalsScored = none ∧
      (teamStatsVal team df).home.avgGoalsConceded = none ∧
      (teamStatsVal team df).home.avgShotsOnTarget = none ∧
      (teamStatsVal team df).home.avgShotsOffTarget = none ∧
      (teamStatsVal team df).home.avgCorners = none ∧
      (teamStatsVal team df).home.totalGoalsScored = 0 ∧
      (teamStatsVal team df).home.totalGoalsConceded = 0) ∧
    (awaySubset team df = [] →
      (teamStatsVal team df).away.avgGoalsScored = none ∧
      (teamStatsVal team df).away.avgGoalsConceded = none ∧
      (teamStatsVal team df).away.avgShotsOnTarget = none ∧
      (teamStatsVal team df).away.avgShotsOffTarget = none ∧
      (teamStatsVal team df).away.avgCorners = none ∧
      (teamStatsVal team df).away.totalGoalsScored = 0 ∧
      (teamStatsVal team df).away.totalGoalsConceded = 0) := by
  refine ⟨requireAll_ok _ hcols, ?_, ?_⟩
  · intro hemp
    simp [teamStatsVal, hemp, subCol, seriesMean, seriesSum, presentVals]
  · intro hemp
    simp [teamStatsVal, hemp, subCol, seriesMean, seriesSum, presentVals]

/-- Witness for C2's amended theorem: team "X" of `dfAlpha` has an empty
home subset. -/
theorem C2_empty_subset_aggregates_witness :
    (get_team_stats "X" dfAlpha = Except.ok (teamStatsVal "X" dfAlpha) ∧
     (homeSubset "X" dfAlpha = [] →
       (teamStatsVal "X" dfAlpha).home.avgGoalsScored = none ∧
       (teamStatsVal "X" dfAlpha).home.avgGoalsConceded = none ∧
       (teamStatsVal "X" dfAlpha).home.avgShotsOnTarget = none ∧
       (teamStatsVal "X" dfAlpha).home.avgShotsOffTarget = none ∧
       (teamStatsVal "X" dfAlpha).home.avgCorners = none ∧
       (teamStatsVal "X" dfAlpha).home.totalGoalsScored = 0 ∧
       (teamStatsVal "X" dfAlpha).home.totalGoalsConceded = 0) ∧
     (awaySubset "X" dfAlpha = [] →
       (teamStatsVal "X" dfAlpha).away.avgGoalsScored = none ∧
       (teamStatsVal "X" dfAlpha).away.avgGoalsConceded = none ∧
       (teamStatsVal "X" dfAlpha).away.avgShotsOnTarget = none ∧
       (teamStatsVal "X" dfAlpha).away.avgShotsOffTarget = none ∧
       (teamStatsVal "X" dfAlpha).away.avgCorners = none ∧
       (teamStatsVal "X" dfAlpha).away.totalGoalsScored = 0 ∧
       (teamStatsVal "X" dfAlpha).away.totalGoalsConceded = 0)) :=
  C2_empty_subset_aggregates "X" dfAlpha (by decide)

/-- C3 counterexample: `dfNoGoals` exposes every validator-required column
(plus the team columns) but not `Goals_H_FT`; validation passes, yet
`get_team_stats` fails with a missing-column error on `Goals_H_FT`. -/
theorem C3_counterexample :
    check_columns dfNoGoals = true ∧
    get_team_stats "A" dfNoGoals = Except.error "Goals_H_FT" :=
  ⟨rfl, rfl⟩

/-- C3 amended: validation passing guarantees every column the Odds
Summarizer reads, so `calculate_average_odds` succeeds; it does not
guarantee the `Home`/`Away`/goals columns the Performance Aggregator reads —
when those four are additionally present, `get_team_stats` succeeds too. -/
theorem C3_validation_coverage (dfa : DataFrame) (hchecka : check_columns dfa = true)
    (df : DataFrame) (team : String) (hcheck : check_columns df = true)
    (hHome : "Home" ∈ df.cols) (hAway : "Away" ∈ df.cols)
    (hGH : "Goals_H_FT" ∈ df.cols) (hGA : "Goals_A_FT" ∈ df.cols) :
    calculate_average_odds dfa = Except.ok (oddsVal dfa) ∧
    get_team_stats team df = Except.ok (teamStatsVal team df) := by
  have hreq := check_columns_iff.mp hcheck
  refine ⟨calculate_average_odds_ok hchecka, requireAll_ok _ ?_⟩
  intro c hc
  simp only [TEAM_STATS_COLS, List.mem_cons, List.not_mem_nil, or_false] at hc
  rcases hc with rfl | rfl | rfl | rfl | rfl | rfl | rfl | rfl | rfl | rfl
  exacts [hHome, hGH, hGA, hreq _ (by decide), hreq _ (by decide), hreq _ (by decide),
    hAway, hreq _ (by decide), hreq _ (by decide), hreq _ (by decide)]

/-- Witness for C3's amended theorem on `dfAlpha`, which carries the team
and goals columns in addition to the required ones. -/
theorem C3_validation_coverage_witness :
    calculate_average_odds dfAlpha = Except.ok (oddsVal dfAlpha) ∧
    get_team_stats "Alpha" dfAlpha = Except.ok (teamStatsVal "Alpha" dfAlpha) :=
  C3_validation_coverage dfAlpha rfl dfAlpha "Alpha" rfl
    (by decide) (by decide) (by decide) (by decide)

/-- C5 counterexample: the statistics branch run on `dfAlpha` with the
unknown team "Zeta" completes with an ordinary ok result — no error of any
kind is reported for the unknown team — and Zeta's summary is the
all-undefined record (averages NaN, totals 0, empty recent list) the claim
says must be distinguished from it. -/
theorem C5_counterexample :
    run_analysis idFmt "Alpha" "Zeta" dfAlpha =
      some (Except.ok (analysisVal idFmt "Alpha" "Zeta" dfAlpha)) ∧
    (analysisVal idFmt "Alpha" "Zeta" dfAlpha).recent2 = [] ∧
    (analysisVal idFmt "Alpha" "Zeta" dfAlpha).stats2.home.avgGoalsScored = none ∧
    (analysisVal idFmt "Alpha" "Zeta" dfAlpha).stats2.home.totalGoalsScored = 0 :=
  ⟨rfl, rfl, rfl, rfl⟩

/-- C5 amended: the program performs no unknown-team check and raises no
error: for a valid dataset and a team absent from every Home/Away cell, the
analysis completes normally; the unknown team's recent list is empty and
both its venue summaries are the all-undefined record (averages NaN, totals
0), while the other team's recent/performance results and the dataset-wide
odds summary are exactly the standalone values. (In the UI the team
selectors only offer names drawn from the dataset's Home/Away columns.) -/
theorem C5_unknown_team_no_error (fmt : Value → Value) (team1 team2 : String)
    (df : DataFrame) (hcheck : check_columns df = true)
    (hHome : "Home" ∈ df.cols) (hAway : "Away" ∈ df.cols) (hDate : "Date" ∈ df.cols)
    (hGH : "Goals_H_FT" ∈ df.cols) (hGA : "Goals_A_FT" ∈ df.cols)
    (habsent : ∀ r ∈ df.rows,
      cell r "Home" ≠ Value.str team2 ∧ cell r "Away" ≠ Value.str team2) :
    run_analysis fmt team1 team2 df =
      some (Except.ok (analysisVal fmt team1 team2 df)) ∧
    (analysisVal fmt team1 team2 df).recent2 = [] ∧
    (analysisVal fmt team1 team2 df).stats2.home =
      { avgGoalsScored := none, totalGoalsScored := 0, avgGoalsConceded := none,
        totalGoalsConceded := 0, avgShotsOnTarget := none, avgShotsOffTarget := none,
        avgCorners := none } ∧
    (analysisVal fmt team1 team2 df).stats2.away =
      { avgGoalsScored := none, totalGoalsScored := 0, avgGoalsConceded := none,
        totalGoalsConceded := 0, avgShotsOnTarget := none, avgShotsOffTarget := none,
        avgCorners := none } ∧
    (analysisVal fmt team1 team2 df).recent1 = recentVal fmt team1 df ∧
    (analysisVal fmt team1 team2 df).stats1 = teamStatsVal team1 df ∧
    (analysisVal fmt team1 team2 df).odds = oddsVal df := by
  have hreq := check_columns_iff.mp hcheck
  have hrec : ∀ c ∈ RECENT_ACCESS_COLS, c ∈ df.cols := by
    intro c hc
    simp only [RECENT_ACCESS_COLS, List.mem_cons, List.not_mem_nil, or_false] at hc
    rcases hc with rfl | rfl | rfl | rfl | rfl | rfl | rfl | rfl | rfl | rfl | rfl
    exacts [hHome, hAway, hDate, hGH, hGA, hreq _ (by decide), hreq _ (by decide),
      hreq _ (by decide), hreq _ (by decide), hreq _ (by decide), hreq _ (by decide)]
  have hts : ∀ c ∈ TEAM_STATS_COLS, c ∈ df.cols := by
    intro c hc
    simp only [TEAM_STATS_COLS, List.mem_cons, List.not_mem_nil, or_false] at hc
    rcases hc with rfl | rfl | rfl | rfl | rfl | rfl | rfl | rfl | rfl | rfl
    exacts [hHome, hGH, hGA, hreq _ (by decide), hreq _ (by decide), hreq _ (by decide),
      hAway, hreq _ (by decide), hreq _ (by decide), hreq _ (by decide)]
  have e1 : get_recent_stats fmt team1 df = Except.ok (recentVal fmt team1 df) :=
    requireAll_ok _ hrec
  have e2 : get_recent_stats fmt team2 df = Except.ok (recentVal fmt team2 df) :=
    requireAll_ok _ hrec
  have e3 : get_team_stats team1 df = Except.ok (teamStatsVal team1 df) :=
    requireAll_ok _ hts
  have e4 : get_team_stats team2 df = Except.ok (teamStatsVal team2 df) :=
    requireAll_ok _ hts
  have e5 : calculate_average_odds df = Except.ok (oddsVal df) :=
    calculate_average_odds_ok hcheck
  have hinv : involvedSubset team2 df = [] := by
    unfold involvedSubset
    rw [List.filter_eq_nil_iff]
    intro r hr
    obtain ⟨hh, ha⟩ := habsent r hr
    simp [hh, ha]
  have hhome : homeSubset team2 df = [] := by
    unfold homeSubset
    rw [List.filter_eq_nil_iff]
    intro r hr
    simp [(habsent r hr).1]
  have haway : awaySubset team2 df = [] := by
    unfold awaySubset
    rw [List.filter_eq_nil_iff]
    intro r hr
    simp [(habsent r hr).2]
  refine ⟨?_, ?_, ?_, ?_, rfl, rfl, rfl⟩
  · simp only [run_analysis, hcheck, if_true, e1, e2, e3, e4, e5, except_ok_bind]
    rfl
  · show recentVal fmt team2 df = []
    simp [recentVal, hinv, tailN]
  · show (teamStatsVal team2 df).home = _
    simp [teamStatsVal, hhome, subCol, seriesMean, seriesSum, presentVals]
  · show (teamStatsVal team2 df).away = _
    simp [teamStatsVal, haway, subCol, seriesMean, seriesSum, presentVals]

/-- Witness for C5's amended theorem: "Zeta" appears nowhere in `dfAlpha`. -/
theorem C5_unknown_team_no_error_witness :
    run_analysis idFmt "Alpha" "Zeta" dfAlpha =
      some (Except.ok (analysisVal idFmt "Alpha" "Zeta" dfAlpha)) ∧
    (analysisVal idFmt "Alpha" "Zeta" dfAlpha).recent2 = [] ∧
    (analysisVal idFmt "Alpha" "Zeta" dfAlpha).stats2.home =
      { avgGoalsScored := none, totalGoalsScored := 0, avgGoalsConceded := none,
        totalGoalsConceded := 0, avgShotsOnTarget := none, avgShotsOffTarget := none,
        avgCorners := none } ∧
    (analysisVal idFmt "Alpha" "Zeta" dfAlpha).stats2.away =
      { avgGoalsScored := none, totalGoalsScored := 0, avgGoalsConceded := none,
        totalGoalsConceded := 0, avgShotsOnTarget := none, avgShotsOffTarget := none,
        avgCorners := none } ∧
    (analysisVal idFmt "Alpha" "Zeta" dfAlpha).recent1 = recentVal idFmt "Alpha" dfAlpha ∧
    (analysisVal idFmt "Alpha" "Zeta" dfAlpha).stats1 = teamStatsVal "Alpha" dfAlpha ∧
    (analysisVal idFmt "Alpha" "Zeta" dfAlpha).odds = oddsVal dfAlpha :=
  C5_unknown_team_no_error idFmt "Alpha" "Zeta" dfAlpha rfl
    (by decide) (by decide) (by decide) (by decide) (by decide) (by decide)

/-- C8 counterexample: in `dfSelf` the single row records team "A" as both
its home and its away side, so the row belongs to both the home subset and
the away subset used by `get_team_stats` — the two subsets are not
disjoint for every dataset. -/
theorem C8_counterexample :
    rowSelf ∈ homeSubset "A" dfSelf ∧ rowSelf ∈ awaySubset "A" dfSelf := by
  constructor <;> simp [homeSubset, awaySubset, dfSelf, rowSelf, cell]

/-- C8 amended: provided no row lists the team as both its home and its away
side, the home and away subsets used by `get_team_stats` are disjoint in row
identity; and a row of the dataset belongs to one of the two subsets exactly
when it belongs to the involving filter used by `get_recent_stats`. -/
theorem C8_subsets_disjoint_union (team : String) (df : DataFrame)
    (hnoself : ∀ r ∈ df.rows,
      ¬(cell r "Home" = Value.str team ∧ cell r "Away" = Value.str team)) :
    (∀ r ∈ df.rows, ¬(r ∈ homeSubset team df ∧ r ∈ awaySubset team df)) ∧
    (∀ r ∈ df.rows,
      (r ∈ homeSubset team df ∨ r ∈ awaySubset team df) ↔ r ∈ involvedSubset team df) := by
  constructor
  · rintro r hr ⟨hh, ha⟩
    exact hnoself r hr
      ⟨of_decide_eq_true (List.mem_filter.mp hh).2, of_decide_eq_true (List.mem_filter.mp ha).2⟩
  · intro r hr
    simp [homeSubset, awaySubset, involvedSubset, List.mem_filter, hr]

/-- Witness for C8's amended theorem on `dfAlpha` with team "Alpha". -/
theorem C8_subsets_disjoint_union_witness :
    (∀ r ∈ dfAlpha.rows,
      ¬(r ∈ homeSubset "Alpha" dfAlpha ∧ r ∈ awaySubset "Alpha" dfAlpha)) ∧
    (∀ r ∈ dfAlpha.rows,
      (r ∈ homeSubset "Alpha" dfAlpha ∨ r ∈ awaySubset "Alpha" dfAlpha) ↔
        r ∈ involvedSubset "Alpha" dfAlpha) :=
  C8_subsets_disjoint_union "Alpha" dfAlpha (by decide)

/-- Witness for C10 on the empty dataset `dfEmpty`. -/
theorem C10_empty_dataset_witness :
    check_columns dfEmpty = true ∧
    calculate_average_odds dfEmpty = Except.ok
      ({ homeWin := none, draw := none, awayWin := none },
       { over05 := none, under05 := none, over15 := none, under15 := none,
         over25 := none, under25 := none }) :=
  C10_empty_dataset dfEmpty (fun _ hc => hc) rfl

end Futebol
